import Mathlib

/-!
Verification of the LittlePaimon utility components: the daily usage
counter (`DailyNumberLimiter`), the cooldown limiter (`FreqLimiter`), the
TTL memoization decorator (`cache`) from LittlePaimon/utils/tool.py, and
the thin API wrapper functions from hoshino/modules/Genshin_Paimon/get_data.py.

Modelling conventions:
* Python `float` timestamps (from time.time / datetime.datetime.now) are
  modelled as rationals; the ambient current time is passed explicitly as a
  `now` argument wherever the source reads the clock.
* Python `defaultdict(int)` / `defaultdict(float)` are modelled as total
  functions with the default as the value of unseen keys; a defaultdict
  read that implicitly inserts the default is a no-op in this model.
* Python `int(x)` truncation toward zero is `pyTrunc`.
* Fallible async calls are modelled by `Except`; the HTTP layer and the
  cookie pool (external collaborators) are oracles passed as arguments.
-/

/-- Python int() applied to a rational: truncation toward zero. -/
def pyTrunc (q : ℚ) : ℤ := if 0 ≤ q then ⌊q⌋ else ⌈q⌉

/-- State of tool.py's DailyNumberLimiter: stored day-of-month of the last
reset (`self.today`), the per-key counts (`self.count`, a defaultdict(int)),
and the fixed quota (`self.max`). -/
structure DailyNumberLimiter where
  today : ℤ
  count : String → ℤ
  max : ℤ

namespace DailyNumberLimiter

/-- DailyNumberLimiter.__init__: today = -1, empty counts, max = max_num. -/
def init (max_num : ℤ) : DailyNumberLimiter := ⟨-1, fun _ => 0, max_num⟩

/-- DailyNumberLimiter.check: `day` is the embedding of
`(datetime.datetime.now(tz) - timedelta(hours=0)).day`; if it differs from
the stored day, the stored day is updated and all counts cleared, then the
quota test `count[key] < max` is returned together with the new state. -/
def check (s : DailyNumberLimiter) (day : ℤ) (key : String) :
    Bool × DailyNumberLimiter :=
  if day ≠ s.today then
    (decide ((0 : ℤ) < s.max), ⟨day, fun _ => 0, s.max⟩)
  else
    (decide (s.count key < s.max), s)

/-- DailyNumberLimiter.get_num: returns count[key]; performs no rollover. -/
def get_num (s : DailyNumberLimiter) (key : String) : ℤ := s.count key

/-- DailyNumberLimiter.increase: count[key] += num; performs no rollover. -/
def increase (s : DailyNumberLimiter) (key : String) (num : ℤ) :
    DailyNumberLimiter :=
  ⟨s.today, fun k => if k = key then s.count k + num else s.count k, s.max⟩

/-- DailyNumberLimiter.reset: count[key] = 0; performs no rollover. -/
def reset (s : DailyNumberLimiter) (key : String) : DailyNumberLimiter :=
  ⟨s.today, fun k => if k = key then 0 else s.count k, s.max⟩

end DailyNumberLimiter

/-- State of tool.py's FreqLimiter: `self.next_time`, a defaultdict(float),
mapping each key to the end of its cooldown (default 0.0). -/
structure FreqLimiter where
  next_time : String → ℚ

namespace FreqLimiter

/-- FreqLimiter.__init__: next_time is an empty defaultdict(float). -/
def init : FreqLimiter := ⟨fun _ => 0⟩

/-- FreqLimiter.check: `time.time() >= self.next_time[key]`, with the
current clock passed as `now`. -/
def check (fl : FreqLimiter) (now : ℚ) (key : String) : Bool :=
  decide (fl.next_time key ≤ now)

/-- FreqLimiter.start: `self.next_time[key] = time.time() +
(cooldown_time if cooldown_time > 0 else 60)`. -/
def start (fl : FreqLimiter) (now : ℚ) (key : String) (cooldown_time : ℤ) :
    FreqLimiter :=
  ⟨fun k =>
    if k = key then now + (if 0 < cooldown_time then (cooldown_time : ℚ) else 60)
    else fl.next_time k⟩

/-- FreqLimiter.left: `int(self.next_time[key] - time.time()) + 1`. -/
def left (fl : FreqLimiter) (now : ℚ) (key : String) : ℤ :=
  pyTrunc (fl.next_time key - now) + 1

end FreqLimiter

/-- One entry of the closure variable `cache_data` of tool.py's `cache`
decorator: the dict `{"time": ..., "value": ...}`, both slots initially
None.  Timestamps (datetime.datetime.now()) are rationals; the ttl
(a timedelta) is likewise a rational duration. -/
structure CacheEntry (α : Type) where
  time : Option ℚ
  value : Option α

/-- The closure variable `cache_data`: a dict from canonical keys to
entries, `none` for keys never stored. -/
abbrev CacheMap (α : Type) := String → Option (CacheEntry α)

/-- The dict literal `default_data = {"time": None, "value": None}`. -/
def default_data (α : Type) : CacheEntry α := ⟨none, none⟩

/-- The recomputation guard of `wrapped`:
`not data['time'] or now - data['time'] > ttl`. -/
def staleOrAbsent {α : Type} (ttl : ℚ) (e : CacheEntry α) (now : ℚ) : Bool :=
  match e.time with
  | none => true
  | some t => decide (ttl < now - t)

/-- Whether a call of `wrapped` at time `now` with canonical key `key`
invokes the wrapped function: its entry is absent or stale. -/
def willInvoke {α : Type} (ttl : ℚ) (st : CacheMap α) (key : String)
    (now : ℚ) : Bool :=
  staleOrAbsent ttl ((st key).getD (default_data α)) now

/-- One call of the inner `wrapped` of tool.py's `cache` decorator, given
the canonical key `key` of the bound arguments, the clock reading `now`,
and the outcome `fres` the wrapped function would produce if invoked.
Returns the value `wrapped` returns (the `value` slot, `none` standing for
Python None) or the propagated exception, together with the new cache_data.
On the miss path the source mutates `data` and stores it at `ins_key`; on
an exception the `await` raises before either assignment, so cache_data is
unchanged — both faithfully rendered as a functional update / no update. -/
def cacheStep {α ε : Type} (ttl : ℚ) (st : CacheMap α) (key : String)
    (now : ℚ) (fres : Except ε α) : Except ε (Option α) × CacheMap α :=
  let data := (st key).getD (default_data α)
  if staleOrAbsent ttl data now then
    match fres with
    | Except.error e => (Except.error e, st)
    | Except.ok v =>
        (Except.ok (some v), fun k => if k = key then some ⟨some now, some v⟩ else st k)
  else
    (Except.ok data.value, st)

/-- Python strings as character lists, for the canonical-key computation. -/
abbrev PyStr := List Char

/-- The f-string render `f'{k}_{v}'` of one bound argument of `wrapped`,
with `k` the parameter name and `v` the str() render of its value. -/
def renderArg (p : PyStr × PyStr) : PyStr := p.1 ++ '_' :: p.2

/-- Python `'|'.join(parts)`. -/
def joinBar : List PyStr → PyStr
  | [] => []
  | [s] => s
  | s :: rest => s ++ '|' :: joinBar rest

/-- The canonical key of `wrapped`:
`'|'.join([f'{k}_{v}' for k, v in bound.arguments.items()])`, where
`bound.arguments` lists the parameters in declaration order with their
bound-and-defaulted values (inspect.signature(func).bind + apply_defaults). -/
def ins_key (args : List (PyStr × PyStr)) : PyStr :=
  joinBar (args.map renderArg)

/-- A cookie record handed out by the cookie pool (only its presence
matters to the wrappers' no-cookie branches). -/
structure Cookie where
  cookie : String

/-- Result of a get_data.py wrapper: a user-facing string, a parsed JSON
payload, or Python None (an implicit or explicit `return None`). -/
inductive PyResult (δ : Type) where
  | pstr (s : String)
  | pdata (d : δ)
  | pnone
deriving DecidableEq

/-- Whether a wrapper result is a user-facing string. -/
def PyResult.isStr {δ : Type} : PyResult δ → Bool
  | PyResult.pstr _ => true
  | _ => false

/-- The `server_id = "cn_qd01" if uid[0] == '5' else "cn_gf01"` computation
shared by all wrappers in get_data.py. -/
def genshin_server (uid : String) : String :=
  if uid.front = '5' then "cn_qd01" else "cn_gf01"

/-- The public-pool exhaustion message returned by get_abyss_data,
get_player_card_data and get_chara_detail_data when get_use_cookie yields
nothing. -/
def no_public_cookie_msg : String :=
  "现在派蒙没有可以用的cookie哦，可能是:\n1.公共cookie全都达到了每日30次上限\n2.公共池全都失效了或没有cookie\n让管理员使用 添加公共ck 吧!"

/-- The message of get_daily_note_data when get_own_cookie yields nothing. -/
def no_bind_cookie_note_msg (uid : String) : String :=
  "你的uid" ++ uid ++ "没有绑定对应的cookie,使用ysb绑定才能用实时便签哦!"

/-- The message of get_monthinfo_data when get_own_cookie yields nothing. -/
def no_bind_cookie_month_msg (uid : String) : String :=
  "你的uid" ++ uid ++ "没有绑定对应的cookie,使用ysb绑定才能用每月札记哦!"

/-- get_data.py get_abyss_data, `while True` loop rendered with fuel:
iteration `i` asks the cookie pool (`get_use_cookie` oracle, indexed by
iteration); a falsy cookie returns the exhaustion message; otherwise the
HTTP response (`fetch` oracle, absorbing url/params/headers) is returned
when `check_retcode` (oracle) accepts it, else the loop retries.  `none`
means the fuel ran out before the loop exited. -/
def get_abyss_data {δ : Type} (get_use_cookie : ℕ → Option Cookie)
    (fetch : ℕ → δ) (check_retcode : ℕ → Bool) :
    ℕ → ℕ → Option (PyResult δ)
  | 0, _ => Option.none
  | Nat.succ fuel, i =>
    match get_use_cookie i with
    | Option.none => some (PyResult.pstr no_public_cookie_msg)
    | Option.some _ =>
        if check_retcode i then some (PyResult.pdata (fetch i))
        else get_abyss_data get_use_cookie fetch check_retcode fuel (i + 1)

/-- get_data.py get_player_card_data: same retry-loop shape as
get_abyss_data, same exhaustion message. -/
def get_player_card_data {δ : Type} (get_use_cookie : ℕ → Option Cookie)
    (fetch : ℕ → δ) (check_retcode : ℕ → Bool) :
    ℕ → ℕ → Option (PyResult δ)
  | 0, _ => Option.none
  | Nat.succ fuel, i =>
    match get_use_cookie i with
    | Option.none => some (PyResult.pstr no_public_cookie_msg)
    | Option.some _ =>
        if check_retcode i then some (PyResult.pdata (fetch i))
        else get_player_card_data get_use_cookie fetch check_retcode fuel (i + 1)

/-- get_data.py get_chara_detail_data: same retry-loop shape as
get_abyss_data, same exhaustion message. -/
def get_chara_detail_data {δ : Type} (get_use_cookie : ℕ → Option Cookie)
    (fetch : ℕ → δ) (check_retcode : ℕ → Bool) :
    ℕ → ℕ → Option (PyResult δ)
  | 0, _ => Option.none
  | Nat.succ fuel, i =>
    match get_use_cookie i with
    | Option.none => some (PyResult.pstr no_public_cookie_msg)
    | Option.some _ =>
        if check_retcode i then some (PyResult.pdata (fetch i))
        else get_chara_detail_data get_use_cookie fetch check_retcode fuel (i + 1)

/-- get_data.py get_daily_note_data: no loop; a missing own cookie returns
the binding message, otherwise the parsed response is returned. -/
def get_daily_note_data {δ : Type} (get_own_cookie : Option Cookie)
    (fetch : δ) (uid : String) : PyResult δ :=
  match get_own_cookie with
  | Option.none => PyResult.pstr (no_bind_cookie_note_msg uid)
  | Option.some _ => PyResult.pdata fetch

/-- get_data.py get_chara_skill_data: a missing own cookie returns
Python None (`return None`), otherwise the parsed response. -/
def get_chara_skill_data {δ : Type} (get_own_cookie : Option Cookie)
    (fetch : δ) (uid chara_id : String) : PyResult δ :=
  match get_own_cookie with
  | Option.none => PyResult.pnone
  | Option.some _ => PyResult.pdata fetch

/-- get_data.py get_monthinfo_data: a missing own cookie returns the
binding message; otherwise the parsed response when check_retcode accepts
it, else the function falls off its end returning Python None. -/
def get_monthinfo_data {δ : Type} (get_own_cookie : Option Cookie)
    (fetch : δ) (check_retcode : Bool) (uid month : String) : PyResult δ :=
  match get_own_cookie with
  | Option.none => PyResult.pstr (no_bind_cookie_month_msg uid)
  | Option.some _ =>
      if check_retcode then PyResult.pdata fetch else PyResult.pnone

/-! Helper lemmas and claim theorems. -/

/-- A sample key, standing for an arbitrary user/group id. -/
def kKey : String := "k"

lemma pyTrunc_of_nonneg {q : ℚ} (h : 0 ≤ q) : pyTrunc q = ⌊q⌋ := if_pos h

lemma pyTrunc_of_neg {q : ℚ} (h : ¬ 0 ≤ q) : pyTrunc q = ⌈q⌉ := if_neg h

lemma iterate_increase_spec (key : String) (n : ℕ) (s : DailyNumberLimiter) :
    ((fun t => DailyNumberLimiter.increase t key 1)^[n] s).today = s.today ∧
    ((fun t => DailyNumberLimiter.increase t key 1)^[n] s).max = s.max ∧
    ((fun t => DailyNumberLimiter.increase t key 1)^[n] s).count key
      = s.count key + n := by
  induction n with
  | zero => simp
  | succ n ih =>
    rw [Function.iterate_succ_apply']
    refine ⟨ih.1, ih.2.1, ?_⟩
    have hstep :
        (DailyNumberLimiter.increase
          ((fun t => DailyNumberLimiter.increase t key 1)^[n] s) key 1).count key
        = ((fun t => DailyNumberLimiter.increase t key 1)^[n] s).count key + 1 := by
      simp [DailyNumberLimiter.increase]
    rw [hstep, ih.2.2]
    push_cast
    ring

/-- The state reached from a fresh limiter with max 2 by serving check on
day 1 and then one increase of key `kKey`: a realizable operation
sequence whose stored day is 1 and whose count for `kKey` is 1. -/
def dnlScenario : DailyNumberLimiter :=
  DailyNumberLimiter.increase ((DailyNumberLimiter.init 2).check 1 kKey).2 kKey 1

/-- Claim C1 is false as stated: starting from init 2, after check on day 1
and one increase, the current day 2 differs from the stored day, yet
get_num is served without any clearing and still reads the prior count 1,
not 0 — get_num (like increase and reset) never performs the rollover. -/
theorem C1_counterexample :
    (2 : ℤ) ≠ dnlScenario.today ∧
    DailyNumberLimiter.get_num dnlScenario kKey = 1 := by
  constructor
  · decide
  · decide

/-- Claim C1 (amended): the day-rollover is performed only by check; when
check runs with a current day different from the stored day, it updates the
stored day and clears every count before evaluating the quota test, so its
result is `0 < max` and every subsequent get_num reads 0. -/
theorem C1_rollover_via_check (s : DailyNumberLimiter) (day : ℤ) (key : String)
    (h : day ≠ s.today) :
    ((s.check day key).2.today = day) ∧
    (∀ k, DailyNumberLimiter.get_num (s.check day key).2 k = 0) ∧
    ((s.check day key).1 = decide ((0 : ℤ) < s.max)) := by
  unfold DailyNumberLimiter.check
  rw [if_pos h]
  exact ⟨rfl, fun k => rfl, rfl⟩

/-- Witness for C1_rollover_via_check at a fresh limiter and day 5. -/
theorem C1_rollover_via_check_witness :
    ((5 : ℤ) ≠ (DailyNumberLimiter.init 2).today) ∧
    (((DailyNumberLimiter.init 2).check 5 kKey).2.today = 5 ∧
     (∀ k, DailyNumberLimiter.get_num ((DailyNumberLimiter.init 2).check 5 kKey).2 k = 0) ∧
     ((DailyNumberLimiter.init 2).check 5 kKey).1
       = decide ((0 : ℤ) < (DailyNumberLimiter.init 2).max)) :=
  ⟨by decide, C1_rollover_via_check (DailyNumberLimiter.init 2) 5 kKey (by decide)⟩

/-- Claim C6: from a fresh-today state with count 0 for the key and a
positive quota n = max, n increases (day unchanged) make check false, and
a reset makes check true again. -/
theorem C6_quota (s : DailyNumberLimiter) (day : ℤ) (key : String) (n : ℕ)
    (hpos : 0 < n) (hmax : s.max = (n : ℤ)) (htoday : s.today = day)
    (hcount : s.count key = 0) :
    (((fun t => DailyNumberLimiter.increase t key 1)^[n] s).check day key).1 = false ∧
    ((((fun t => DailyNumberLimiter.increase t key 1)^[n] s).reset key).check day key).1
      = true := by
  obtain ⟨ht, hm, hc⟩ := iterate_increase_spec key n s
  constructor
  · unfold DailyNumberLimiter.check
    rw [if_neg (by rw [ht, htoday]; simp)]
    rw [hc, hm, hcount, hmax]
    simp
  · unfold DailyNumberLimiter.check DailyNumberLimiter.reset
    rw [if_neg (by rw [ht, htoday]; simp)]
    simp only [if_pos rfl]
    rw [hm, hmax]
    simp [hpos]

/-- The fresh-today state used as the C6 witness: init 3 after a check on
day 5. -/
def dnlFresh : DailyNumberLimiter := ((DailyNumberLimiter.init 3).check 5 kKey).2

/-- Witness for C6_quota with max 3 on day 5. -/
theorem C6_quota_witness :
    ((0 < 3) ∧ dnlFresh.max = ((3 : ℕ) : ℤ) ∧ dnlFresh.today = 5 ∧
      dnlFresh.count kKey = 0) ∧
    ((((fun t => DailyNumberLimiter.increase t kKey 1)^[3] dnlFresh).check 5 kKey).1
        = false ∧
     ((((fun t => DailyNumberLimiter.increase t kKey 1)^[3] dnlFresh).reset kKey).check
        5 kKey).1 = true) :=
  ⟨⟨by decide, by decide, by decide, by decide⟩,
   C6_quota dnlFresh 5 kKey 3 (by decide) (by decide) (by decide) (by decide)⟩

/-- Claim C7: check is true iff the current time has reached the stored
next-allowed time, and a never-started key has next-allowed time 0, hence
(for the nonnegative wall clock) behaves as already expired. -/
theorem C7_check_iff (fl : FreqLimiter) (now : ℚ) (key : String)
    (hnow : 0 ≤ now) :
    (fl.check now key = true ↔ fl.next_time key ≤ now) ∧
    FreqLimiter.init.next_time key = 0 ∧
    FreqLimiter.init.check now key = true := by
  refine ⟨?_, rfl, ?_⟩
  · simp [FreqLimiter.check]
  · simp only [FreqLimiter.check, FreqLimiter.init]
    exact decide_eq_true hnow

/-- Witness for C7_check_iff at the fresh limiter and time 1. -/
theorem C7_check_iff_witness :
    ((0 : ℚ) ≤ 1) ∧
    ((FreqLimiter.init.check 1 kKey = true ↔ FreqLimiter.init.next_time kKey ≤ 1) ∧
     FreqLimiter.init.next_time kKey = 0 ∧
     FreqLimiter.init.check 1 kKey = true) :=
  ⟨by norm_num, C7_check_iff FreqLimiter.init 1 kKey (by norm_num)⟩

/-- Claim C8: start sets the next-allowed time to now + d for positive d
and to now + 60 for d ≤ 0; after start of 10 units an immediate check is
false, and any check at or after now + 10 is true. -/
lemma start_next_self (fl : FreqLimiter) (now : ℚ) (key : String) (d : ℤ) :
    (fl.start now key d).next_time key
      = now + (if 0 < d then (d : ℚ) else 60) := by
  unfold FreqLimiter.start
  simp

theorem C8_start_spec (fl : FreqLimiter) (now : ℚ) (key : String) (d : ℤ) :
    (0 < d → (fl.start now key d).next_time key = now + (d : ℚ)) ∧
    (d ≤ 0 → (fl.start now key d).next_time key = now + 60) ∧
    (fl.start now key 10).check now key = false ∧
    (∀ t, now + 10 ≤ t → (fl.start now key 10).check t key = true) := by
  refine ⟨?_, ?_, ?_, ?_⟩
  · intro hd
    rw [start_next_self, if_pos hd]
  · intro hd
    rw [start_next_self, if_neg (by omega)]
  · unfold FreqLimiter.check
    rw [start_next_self, if_pos (by norm_num : (0 : ℤ) < 10)]
    simp only [decide_eq_false_iff_not]
    norm_num
  · intro t ht
    unfold FreqLimiter.check
    rw [start_next_self, if_pos (by norm_num : (0 : ℤ) < 10)]
    simp only [decide_eq_true_eq]
    push_cast
    linarith

/-- Witness for C8_start_spec on the fresh limiter at time 0, exercising
the positive branch with d = 10, the nonpositive branch with d = -3, the
immediate check and the check at time 12. -/
theorem C8_start_spec_witness :
    ((0 : ℤ) < 10 ∧ (FreqLimiter.init.start 0 kKey 10).next_time kKey = 0 + ((10 : ℤ) : ℚ)) ∧
    ((-3 : ℤ) ≤ 0 ∧ (FreqLimiter.init.start 0 kKey (-3)).next_time kKey = 0 + 60) ∧
    (FreqLimiter.init.start 0 kKey 10).check 0 kKey = false ∧
    ((0 : ℚ) + 10 ≤ 12 ∧ (FreqLimiter.init.start 0 kKey 10).check 12 kKey = true) :=
  ⟨⟨by norm_num, (C8_start_spec FreqLimiter.init 0 kKey 10).1 (by norm_num)⟩,
   ⟨by norm_num, (C8_start_spec FreqLimiter.init 0 kKey (-3)).2.1 (by norm_num)⟩,
   (C8_start_spec FreqLimiter.init 0 kKey 10).2.2.1,
   ⟨by norm_num, (C8_start_spec FreqLimiter.init 0 kKey 10).2.2.2 12 (by norm_num)⟩⟩

/-- Claim C9: while a cooldown has not expired, left is at least 1; a
cooldown expired by less than one time-unit still reports 1; and left is
exactly the truncating conversion int(next - now) + 1. -/
theorem C9_left_lower_bound (fl : FreqLimiter) (now : ℚ) (key : String) :
    (now < fl.next_time key → 1 ≤ fl.left now key) ∧
    (fl.next_time key < now → now - fl.next_time key < 1 → fl.left now key = 1) ∧
    fl.left now key = pyTrunc (fl.next_time key - now) + 1 := by
  refine ⟨?_, ?_, rfl⟩
  · intro h
    unfold FreqLimiter.left
    have hq : 0 ≤ fl.next_time key - now := by linarith
    rw [pyTrunc_of_nonneg hq]
    have hf : 0 ≤ ⌊fl.next_time key - now⌋ := Int.floor_nonneg.2 hq
    omega
  · intro h1 h2
    unfold FreqLimiter.left
    have hq : ¬ 0 ≤ fl.next_time key - now := by
      intro hc
      linarith
    rw [pyTrunc_of_neg hq]
    have hc0 : ⌈fl.next_time key - now⌉ ≤ 0 := by
      rw [Int.ceil_le]
      push_cast
      linarith
    have hc1 : (-1 : ℤ) < ⌈fl.next_time key - now⌉ := by
      rw [Int.lt_ceil]
      push_cast
      linarith
    omega

/-- Witness for C9_left_lower_bound on a limiter with next-allowed time 10,
probed at times 9 (unexpired) and 21/2 (expired by half a unit). -/
theorem C9_left_lower_bound_witness :
    ((9 : ℚ) < (FreqLimiter.mk fun _ => 10).next_time kKey ∧
     1 ≤ (FreqLimiter.mk fun _ => 10).left 9 kKey) ∧
    ((FreqLimiter.mk fun _ => 10).next_time kKey < 21 / 2 ∧
     21 / 2 - (FreqLimiter.mk fun _ => 10).next_time kKey < 1 ∧
     (FreqLimiter.mk fun _ => 10).left (21 / 2) kKey = 1) := by
  have h1 := (C9_left_lower_bound (FreqLimiter.mk fun _ => 10) 9 kKey).1
  have h2 := (C9_left_lower_bound (FreqLimiter.mk fun _ => 10) (21 / 2) kKey).2.1
  refine ⟨⟨?_, h1 ?_⟩, ?_, ?_, h2 ?_ ?_⟩
  · show (9 : ℚ) < 10
    norm_num
  · show (9 : ℚ) < 10
    norm_num
  · show (10 : ℚ) < 21 / 2
    norm_num
  · show (21 : ℚ) / 2 - 10 < 1
    norm_num
  · show (10 : ℚ) < 21 / 2
    norm_num
  · show (21 : ℚ) / 2 - 10 < 1
    norm_num

lemma left_nonpos_of_expired {fl : FreqLimiter} {now : ℚ} {key : String}
    (h : fl.next_time key - now ≤ -1) : fl.left now key ≤ 0 := by
  unfold FreqLimiter.left
  have hq : ¬ 0 ≤ fl.next_time key - now := by
    intro hc
    linarith
  rw [pyTrunc_of_neg hq]
  have hc1 : ⌈fl.next_time key - now⌉ ≤ -1 := by
    rw [Int.ceil_le]
    push_cast
    linarith
  omega

/-- Claim C10: for an inactive cooldown — next-allowed time 0 as for a
never-started key (with the wall clock at least 1, as epoch time always
is), or expired by more than one unit — left is nonpositive; a
never-started key's next-allowed time is 0 and its left is exactly
int(0 - now) + 1. -/
theorem C10_left_inactive (fl : FreqLimiter) (now : ℚ) (key : String) :
    (fl.next_time key = 0 → 1 ≤ now → fl.left now key ≤ 0) ∧
    (fl.next_time key + 1 < now → fl.left now key ≤ 0) ∧
    FreqLimiter.init.next_time key = 0 ∧
    FreqLimiter.init.left now key = pyTrunc (0 - now) + 1 := by
  refine ⟨?_, ?_, rfl, rfl⟩
  · intro h0 h1
    exact left_nonpos_of_expired (by rw [h0]; linarith)
  · intro h
    exact left_nonpos_of_expired (by linarith)

/-- Witness for C10_left_inactive on the fresh limiter at time 5. -/
theorem C10_left_inactive_witness :
    (FreqLimiter.init.next_time kKey = 0 ∧ (1 : ℚ) ≤ 5 ∧
      FreqLimiter.init.left 5 kKey ≤ 0) ∧
    (FreqLimiter.init.next_time kKey + 1 < 5 ∧ FreqLimiter.init.left 5 kKey ≤ 0) := by
  have h := C10_left_inactive FreqLimiter.init 5 kKey
  refine ⟨⟨rfl, by norm_num, h.1 rfl (by norm_num)⟩, ⟨?_, h.2.1 ?_⟩⟩
  · show (0 : ℚ) + 1 < 5
    norm_num
  · show (0 : ℚ) + 1 < 5
    norm_num

lemma cacheStep_miss {α ε : Type} (ttl : ℚ) (st : CacheMap α) (key : String)
    (now : ℚ) (fres : Except ε α) (h : willInvoke ttl st key now = true) :
    cacheStep ttl st key now fres
      = (match fres with
         | Except.error e => (Except.error e, st)
         | Except.ok v =>
             (Except.ok (some v),
              fun k => if k = key then some ⟨some now, some v⟩ else st k)) := by
  unfold willInvoke at h
  unfold cacheStep
  rw [if_pos h]

lemma cacheStep_hit {α ε : Type} (ttl : ℚ) (st : CacheMap α) (key : String)
    (now : ℚ) (fres : Except ε α) (h : willInvoke ttl st key now = false) :
    cacheStep ttl st key now fres
      = (Except.ok ((st key).getD (default_data α)).value, st) := by
  unfold willInvoke at h
  unfold cacheStep
  rw [if_neg (by rw [h]; simp)]

lemma staleOrAbsent_mono {α : Type} (ttl : ℚ) (e : CacheEntry α)
    {now now' : ℚ} (h : now ≤ now') (hs : staleOrAbsent ttl e now = true) :
    staleOrAbsent ttl e now' = true := by
  unfold staleOrAbsent at hs ⊢
  match he : e.time with
  | none => rfl
  | some t =>
    rw [he] at hs
    simp only [decide_eq_true_eq] at hs ⊢
    linarith

/-- Claim C2: if the wrapped function raises on a call whose cache entry is
absent or stale, the same exception is returned to the caller, the whole
cache_data map is exactly as before the call, and any later call at a time
no earlier than this one still invokes the wrapped function. -/
theorem C2_failure_atomicity {α ε : Type} (ttl : ℚ) (st : CacheMap α)
    (key : String) (now : ℚ) (e : ε)
    (h : willInvoke ttl st key now = true) :
    (cacheStep ttl st key now (Except.error e : Except ε α)).1 = Except.error e ∧
    (cacheStep ttl st key now (Except.error e : Except ε α)).2 = st ∧
    (∀ now', now ≤ now' →
      willInvoke ttl (cacheStep ttl st key now (Except.error e : Except ε α)).2 key now'
        = true) := by
  unfold willInvoke at h
  unfold cacheStep
  rw [if_pos h]
  refine ⟨rfl, rfl, ?_⟩
  intro now' hle
  exact staleOrAbsent_mono ttl _ hle h

/-- Witness for C2_failure_atomicity on the empty cache at time 0 with a
wrapped function that raises exception 7. -/
theorem C2_failure_atomicity_witness :
    willInvoke 1 (fun _ => Option.none : CacheMap ℕ) kKey 0 = true ∧
    ((cacheStep 1 (fun _ => Option.none) kKey 0 (Except.error 7 : Except ℕ ℕ)).1
        = Except.error 7 ∧
      ((cacheStep 1 (fun _ => Option.none) kKey 0 (Except.error 7 : Except ℕ ℕ)).2
        = fun _ => Option.none) ∧
      (∀ now', (0 : ℚ) ≤ now' →
        willInvoke 1
          (cacheStep 1 (fun _ => Option.none) kKey 0 (Except.error 7 : Except ℕ ℕ)).2
          kKey now' = true)) :=
  ⟨rfl, C2_failure_atomicity 1 (fun _ => Option.none) kKey 0 7 rfl⟩

/-- Claim C5: on an absent entry the first call invokes the function and
stores its value at the current time; a second identical call whose age is
at most ttl does not invoke the function and returns the stored value with
the cache unchanged; a third identical call whose age exceeds ttl invokes
the function again; and an entry with a stored time is fresh (not
stale) exactly when now - storedAt ≤ ttl. -/
theorem C5_ttl_idempotence {α ε : Type} (ttl : ℚ) (key : String)
    (now₁ now₂ now₃ : ℚ) (v₁ : α) (st₀ : CacheMap α) (fres₂ : Except ε α)
    (h0 : st₀ key = Option.none) (h2 : now₂ - now₁ ≤ ttl)
    (h3 : ttl < now₃ - now₁) :
    willInvoke ttl st₀ key now₁ = true ∧
    (cacheStep ttl st₀ key now₁ (Except.ok v₁ : Except ε α)).1
      = Except.ok (some v₁) ∧
    willInvoke ttl (cacheStep ttl st₀ key now₁ (Except.ok v₁ : Except ε α)).2 key now₂
      = false ∧
    (cacheStep ttl (cacheStep ttl st₀ key now₁ (Except.ok v₁ : Except ε α)).2 key now₂
        fres₂).1 = Except.ok (some v₁) ∧
    (cacheStep ttl (cacheStep ttl st₀ key now₁ (Except.ok v₁ : Except ε α)).2 key now₂
        fres₂).2 = (cacheStep ttl st₀ key now₁ (Except.ok v₁ : Except ε α)).2 ∧
    willInvoke ttl (cacheStep ttl st₀ key now₁ (Except.ok v₁ : Except ε α)).2 key now₃
      = true ∧
    (∀ e : CacheEntry α, ∀ now t : ℚ, e.time = some t →
      (staleOrAbsent ttl e now = false ↔ now - t ≤ ttl)) := by
  have hmiss : willInvoke ttl st₀ key now₁ = true := by
    unfold willInvoke
    rw [h0]
    rfl
  have hstep1 :
      cacheStep ttl st₀ key now₁ (Except.ok v₁ : Except ε α)
        = (Except.ok (some v₁),
           fun k => if k = key then some ⟨some now₁, some v₁⟩ else st₀ k) :=
    cacheStep_miss ttl st₀ key now₁ (Except.ok v₁) hmiss
  have hst1key :
      (cacheStep ttl st₀ key now₁ (Except.ok v₁ : Except ε α)).2 key
        = some ⟨some now₁, some v₁⟩ := by
    rw [hstep1]
    simp
  have hfresh :
      willInvoke ttl (cacheStep ttl st₀ key now₁ (Except.ok v₁ : Except ε α)).2 key now₂
        = false := by
    unfold willInvoke
    rw [hst1key]
    unfold staleOrAbsent
    simp only [Option.getD_some, decide_eq_false_iff_not]
    intro hc
    linarith
  have hstep2 :=
    cacheStep_hit ttl (cacheStep ttl st₀ key now₁ (Except.ok v₁ : Except ε α)).2 key
      now₂ fres₂ hfresh
  refine ⟨hmiss, by rw [hstep1], hfresh, ?_, ?_, ?_, ?_⟩
  · rw [hstep2, hst1key]
    simp
  · rw [hstep2]
  · unfold willInvoke
    rw [hst1key]
    unfold staleOrAbsent
    simp only [Option.getD_some, decide_eq_true_eq]
    linarith
  · intro e now t het
    unfold staleOrAbsent
    rw [het]
    simp only [decide_eq_false_iff_not, not_lt]

/-- Witness for C5_ttl_idempotence: empty cache, ttl 10, calls at times 0,
5 and 20, first result 1, hypothetical second result 2. -/
theorem C5_ttl_idempotence_witness :
    ((fun _ => Option.none : CacheMap ℕ) kKey = Option.none ∧
     (5 : ℚ) - 0 ≤ 10 ∧ (10 : ℚ) < 20 - 0) ∧
    (willInvoke 10 (fun _ => Option.none : CacheMap ℕ) kKey 0 = true ∧
     (cacheStep 10 (fun _ => Option.none : CacheMap ℕ) kKey 0
        (Except.ok 1 : Except ℕ ℕ)).1 = Except.ok (some 1) ∧
     willInvoke 10
        (cacheStep 10 (fun _ => Option.none : CacheMap ℕ) kKey 0
          (Except.ok 1 : Except ℕ ℕ)).2 kKey 5 = false ∧
     (cacheStep 10
        (cacheStep 10 (fun _ => Option.none : CacheMap ℕ) kKey 0
          (Except.ok 1 : Except ℕ ℕ)).2 kKey 5 (Except.ok 2 : Except ℕ ℕ)).1
        = Except.ok (some 1) ∧
     (cacheStep 10
        (cacheStep 10 (fun _ => Option.none : CacheMap ℕ) kKey 0
          (Except.ok 1 : Except ℕ ℕ)).2 kKey 5 (Except.ok 2 : Except ℕ ℕ)).2
        = (cacheStep 10 (fun _ => Option.none : CacheMap ℕ) kKey 0
            (Except.ok 1 : Except ℕ ℕ)).2 ∧
     willInvoke 10
        (cacheStep 10 (fun _ => Option.none : CacheMap ℕ) kKey 0
          (Except.ok 1 : Except ℕ ℕ)).2 kKey 20 = true ∧
     (∀ e : CacheEntry ℕ, ∀ now t : ℚ, e.time = some t →
        (staleOrAbsent 10 e now = false ↔ now - t ≤ 10))) :=
  ⟨⟨rfl, by norm_num, by norm_num⟩,
   @C5_ttl_idempotence ℕ ℕ 10 kKey 0 5 20 1 (fun _ => Option.none)
     (Except.ok 2) rfl (by norm_num) (by norm_num)⟩

/-- First colliding bound argument list: a = "x|b_y", b = "z". -/
def ceArgs₁ : List (PyStr × PyStr) :=
  [(['a'], ['x', '|', 'b', '_', 'y']), (['b'], ['z'])]

/-- Second colliding bound argument list: a = "x", b = "y|b_z". -/
def ceArgs₂ : List (PyStr × PyStr) :=
  [(['a'], ['x']), (['b'], ['y', '|', 'b', '_', 'z'])]

/-- Claim C3 is false as stated: two unequal bound argument lists for the
same parameters a, b produce the same canonical key "a_x|b_y|b_z", because
the name_value rendering joined by the separator is not injective when a
value contains the separator. -/
theorem C3_counterexample : ceArgs₁ ≠ ceArgs₂ ∧ ins_key ceArgs₁ = ins_key ceArgs₂ := by
  constructor
  · decide
  · rfl

lemma sep_split : ∀ x y r₁ r₂ : PyStr, '|' ∉ x → '|' ∉ y →
    x ++ '|' :: r₁ = y ++ '|' :: r₂ → x = y ∧ r₁ = r₂ := by
  intro x
  induction x with
  | nil =>
    intro y r₁ r₂ _ hy h
    cases y with
    | nil =>
      refine ⟨rfl, ?_⟩
      simpa using h
    | cons b y' =>
      rw [List.nil_append, List.cons_append] at h
      injection h with h1 _
      exact absurd (h1 ▸ List.mem_cons_self '|' y') hy
  | cons a x' ih =>
    intro y r₁ r₂ hx hy h
    cases y with
    | nil =>
      rw [List.cons_append, List.nil_append] at h
      injection h with h1 _
      exact absurd (h1 ▸ List.mem_cons_self a x') (h1 ▸ hx)
    | cons b y' =>
      rw [List.cons_append, List.cons_append] at h
      injection h with h1 h2
      obtain ⟨hxy, hr⟩ :=
        ih y' r₁ r₂ (fun hm => hx (List.mem_cons_of_mem a hm))
          (fun hm => hy (List.mem_cons_of_mem b hm)) h2
      exact ⟨by rw [h1, hxy], hr⟩

lemma joinBar_inj : ∀ xs ys : List PyStr, xs.length = ys.length →
    (∀ s ∈ xs, '|' ∉ s) → (∀ s ∈ ys, '|' ∉ s) →
    joinBar xs = joinBar ys → xs = ys := by
  intro xs
  induction xs with
  | nil =>
    intro ys hlen _ _ _
    cases ys with
    | nil => rfl
    | cons y ys' => simp at hlen
  | cons x xs' ih =>
    intro ys hlen hx hy h
    cases ys with
    | nil => simp at hlen
    | cons y ys' =>
      cases xs' with
      | nil =>
        cases ys' with
        | nil =>
          rw [show joinBar [x] = x from rfl, show joinBar [y] = y from rfl] at h
          rw [h]
        | cons y₂ ys'' => simp at hlen
      | cons x₂ xs'' =>
        cases ys' with
        | nil => simp at hlen
        | cons y₂ ys'' =>
          rw [show joinBar (x :: x₂ :: xs'') = x ++ '|' :: joinBar (x₂ :: xs'')
                from rfl,
              show joinBar (y :: y₂ :: ys'') = y ++ '|' :: joinBar (y₂ :: ys'')
                from rfl] at h
          obtain ⟨hxy, hr⟩ :=
            sep_split x y (joinBar (x₂ :: xs'')) (joinBar (y₂ :: ys''))
              (hx x (List.mem_cons_self x _)) (hy y (List.mem_cons_self y _)) h
          have htail :=
            ih (y₂ :: ys'') (by simpa using hlen)
              (fun s hs => hx s (List.mem_cons_of_mem x hs))
              (fun s hs => hy s (List.mem_cons_of_mem y hs)) hr
          rw [hxy, htail]

lemma renderArg_no_bar {p : PyStr × PyStr} (h1 : '|' ∉ p.1) (h2 : '|' ∉ p.2) :
    '|' ∉ renderArg p := by
  unfold renderArg
  intro hm
  rcases List.mem_append.1 hm with hm | hm
  · exact h1 hm
  · rcases List.mem_cons.1 hm with hm | hm
    · exact absurd hm (by decide)
    · exact h2 hm

lemma map_renderArg_inj : ∀ a₁ a₂ : List (PyStr × PyStr),
    a₁.map Prod.fst = a₂.map Prod.fst →
    a₁.map renderArg = a₂.map renderArg → a₁ = a₂ := by
  intro a₁
  induction a₁ with
  | nil =>
    intro a₂ hf _
    cases a₂ with
    | nil => rfl
    | cons q qs => simp at hf
  | cons p ps ih =>
    intro a₂ hf hr
    cases a₂ with
    | nil => simp at hf
    | cons q qs =>
      simp only [List.map_cons, List.cons.injEq] at hf hr
      obtain ⟨pa, pv⟩ := p
      obtain ⟨qa, qv⟩ := q
      have hname : pa = qa := hf.1
      have hrender := hr.1
      unfold renderArg at hrender
      simp only at hrender
      rw [hname] at hrender
      have hcons := List.append_cancel_left hrender
      injection hcons with _ hval
      rw [hname, hval, ih qs hf.2 hr.2]

/-- Claim C3 (amended): for calls binding the same parameter names in the
same order (as two calls to one wrapped function always do), and provided
no rendered name or value contains the separator character, the canonical
keys are equal exactly when the bound argument lists are equal; without
that proviso distinct bound values can collide (C3_counterexample). -/
theorem C3_key_distinctness (args₁ args₂ : List (PyStr × PyStr))
    (hn : args₁.map Prod.fst = args₂.map Prod.fst)
    (h₁ : ∀ p ∈ args₁, '|' ∉ p.1 ∧ '|' ∉ p.2)
    (h₂ : ∀ p ∈ args₂, '|' ∉ p.1 ∧ '|' ∉ p.2) :
    ins_key args₁ = ins_key args₂ ↔ args₁ = args₂ := by
  constructor
  · intro h
    have hlen : (args₁.map renderArg).length = (args₂.map renderArg).length := by
      have hl := congrArg List.length hn
      simpa using hl
    have hmap := joinBar_inj (args₁.map renderArg) (args₂.map renderArg) hlen
      (by
        intro s hs
        obtain ⟨p, hp, hps⟩ := List.mem_map.1 hs
        exact hps ▸ renderArg_no_bar (h₁ p hp).1 (h₁ p hp).2)
      (by
        intro s hs
        obtain ⟨p, hp, hps⟩ := List.mem_map.1 hs
        exact hps ▸ renderArg_no_bar (h₂ p hp).1 (h₂ p hp).2)
      h
    exact map_renderArg_inj args₁ args₂ hn hmap
  · intro h
    rw [h]

/-- Witness for C3_key_distinctness on one-parameter argument lists with
values "12" and "3". -/
theorem C3_key_distinctness_witness :
    (([((['a'] : PyStr), (['1', '2'] : PyStr))].map Prod.fst)
       = ([((['a'] : PyStr), (['3'] : PyStr))].map Prod.fst)) ∧
    (∀ p ∈ [((['a'] : PyStr), (['1', '2'] : PyStr))], '|' ∉ p.1 ∧ '|' ∉ p.2) ∧
    (∀ p ∈ [((['a'] : PyStr), (['3'] : PyStr))], '|' ∉ p.1 ∧ '|' ∉ p.2) ∧
    (ins_key [(['a'], ['1', '2'])] = ins_key [(['a'], ['3'])]
      ↔ [((['a'] : PyStr), (['1', '2'] : PyStr))] = [((['a'] : PyStr), (['3'] : PyStr))]) :=
  ⟨by decide, by decide, by decide,
   C3_key_distinctness [(['a'], ['1', '2'])] [(['a'], ['3'])]
     (by decide) (by decide) (by decide)⟩

/-- A sample uid used to instantiate the wrappers. -/
def uidW : String := "123456789"

/-- A sample character id. -/
def cidW : String := "10000002"

/-- A sample month argument. -/
def monthW : String := "7"

/-- Claim C4 is false as stated: get_chara_skill_data, one of the six
wrappers the claim covers, returns Python None — not a user-facing string —
when the cookie pool reports no usable cookie. -/
theorem C4_counterexample :
    (@get_chara_skill_data ℕ Option.none 0 uidW cidW = PyResult.pnone) ∧
    (@get_chara_skill_data ℕ Option.none 0 uidW cidW).isStr = false :=
  ⟨rfl, rfl⟩

/-- Claim C4 (amended): when the cookie pool reports no usable cookie,
five of the six wrappers return a user-facing string message (the three
retry-loop wrappers return the public-pool exhaustion message as soon as
the pool yields nothing at the iteration reached; get_daily_note_data and
get_monthinfo_data return their binding messages), while
get_chara_skill_data returns Python None; none of them raises. -/
theorem C4_no_cookie_results {δ : Type} (guc : ℕ → Option Cookie)
    (fetchI : ℕ → δ) (crc : ℕ → Bool) (fuel i : ℕ) (d : δ) (rb : Bool)
    (uid month cid : String) (hguc : guc i = Option.none) :
    get_abyss_data guc fetchI crc (fuel + 1) i
      = some (PyResult.pstr no_public_cookie_msg) ∧
    get_player_card_data guc fetchI crc (fuel + 1) i
      = some (PyResult.pstr no_public_cookie_msg) ∧
    get_chara_detail_data guc fetchI crc (fuel + 1) i
      = some (PyResult.pstr no_public_cookie_msg) ∧
    get_daily_note_data Option.none d uid
      = PyResult.pstr (no_bind_cookie_note_msg uid) ∧
    get_monthinfo_data Option.none d rb uid month
      = PyResult.pstr (no_bind_cookie_month_msg uid) ∧
    get_chara_skill_data Option.none d uid cid = PyResult.pnone := by
  refine ⟨?_, ?_, ?_, rfl, rfl, rfl⟩
  · rw [get_abyss_data, hguc]
  · rw [get_player_card_data, hguc]
  · rw [get_chara_detail_data, hguc]

/-- Witness for C4_no_cookie_results: an always-empty cookie pool, a
constant fetch oracle and an accepting retcode oracle. -/
theorem C4_no_cookie_results_witness :
    ((fun _ => Option.none : ℕ → Option Cookie) 0 = Option.none) ∧
    (get_abyss_data (fun _ => Option.none) (fun _ => (0 : ℕ)) (fun _ => true) (0 + 1) 0
       = some (PyResult.pstr no_public_cookie_msg) ∧
     get_player_card_data (fun _ => Option.none) (fun _ => (0 : ℕ)) (fun _ => true) (0 + 1) 0
       = some (PyResult.pstr no_public_cookie_msg) ∧
     get_chara_detail_data (fun _ => Option.none) (fun _ => (0 : ℕ)) (fun _ => true) (0 + 1) 0
       = some (PyResult.pstr no_public_cookie_msg) ∧
     get_daily_note_data Option.none (0 : ℕ) uidW
       = PyResult.pstr (no_bind_cookie_note_msg uidW) ∧
     get_monthinfo_data Option.none (0 : ℕ) true uidW monthW
       = PyResult.pstr (no_bind_cookie_month_msg uidW) ∧
     get_chara_skill_data Option.none (0 : ℕ) uidW cidW = PyResult.pnone) :=
  ⟨rfl,
   @C4_no_cookie_results ℕ (fun _ => Option.none) (fun _ => 0) (fun _ => true)
     0 0 0 true uidW monthW cidW rfl⟩
